import Mathlib

/-
Verification of the FourMM panel generator
(scripts/generate_panel_fourmm.py).

The script is a deterministic, zero-input generator: a layout model made
of scalar constants and the derivation function op_knob_x, an SVG emitter
(generate_svg) and a C++ header emitter (generate_coords_header).

Embedding conventions:
- Python floats are modelled as rationals.  Every constant in the table
  is an exact decimal and every arithmetic operation performed by the
  script is exact in decimals (26 x 5.08 = 132.08 holds exactly even in
  IEEE doubles), so the rational model agrees with the script.
- Python format specifiers .1f and .2f are modelled by fmt1 and fmt2
  (round half away from zero), which agrees with the double rendering on
  every value the script formats, including the one exact tie 101.05
  (the third vertical separator x), which the double error also pushes
  up to 101.1.  Bare f-string interpolation of a float (repr) is
  modelled by pyRepr, exact on the values the script interpolates
  without a format spec (132.08, 128.5, 2.5, 3.2, 0.2).
- The Python dict GLOBAL_CONTROLS is modelled as an association list in
  insertion order, which is exactly the iteration order of a Python
  dict; both emitters are additionally parameterised by that list so
  that order-sensitivity can be stated.
- generate_svg is modelled structurally (a list of SvgElem) together
  with a rendering function producing the very line strings the script
  builds; generate_coords_header likewise via declaration triples
  (name, alignment spacing, value) plus the literal comment and blank
  lines, so that the constant names and values in the emitted listing
  are a projection of the same data that builds the emitted string.
-/

set_option maxRecDepth 40000
set_option maxHeartbeats 4000000

attribute [local semireducible] Rat.add Rat.mul Rat.sub Rat.inv Rat.ofScientific

namespace FourMM

/-! Layout model constants (scripts/generate_panel_fourmm.py, top). -/

def HP : ℚ := 26
def WIDTH_MM : ℚ := HP * 5.08
def HEIGHT_MM : ℚ := 128.5

def SMALL_KNOB_RADIUS : ℚ := 2.5
def JACK_RADIUS : ℚ := 3.2
def TOGGLE_W : ℚ := 2.5
def TOGGLE_H : ℚ := 5.0

def Y_TITLE : ℚ := 6.5
def Y_ALGO : ℚ := 15.0
def Y_GLOBAL_ROW1 : ℚ := 26.0
def Y_GLOBAL_ROW2 : ℚ := 36.0
def Y_OP_HEADER : ℚ := 46.0
def Y_OPS_START : ℚ := 55.0
def Y_OPS_ROW_SPACING : ℚ := 15.0

def MARGIN_LEFT : ℚ := 4.0
def MARGIN_RIGHT : ℚ := 4.0
def LABEL_COL_X : ℚ := 17.0

def OP_SECTION_LEFT : ℚ := 20.0
def OP_COL_PITCH : ℚ := (WIDTH_MM - MARGIN_RIGHT - OP_SECTION_LEFT) / 4

/-- X center for operator knob (left sub-column, 0-3). -/
def op_knob_x (op_idx : ℕ) : ℚ := OP_SECTION_LEFT + OP_COL_PITCH * op_idx + 5.0

def KNOB_TO_MIDDLE_DX : ℚ := 8.5
def KNOB_TO_RIGHT_DX : ℚ := 17.0

/-- The GLOBAL_CONTROLS dict, as an association list in insertion order. -/
def GLOBAL_CONTROLS : List (String × ℚ × ℚ) :=
  [("algo_display", WIDTH_MM / 2, Y_ALGO),
   ("voct_jack", 20.0, Y_GLOBAL_ROW1),
   ("fine_tune_knob", WIDTH_MM / 2, Y_GLOBAL_ROW1),
   ("vca_knob", WIDTH_MM - 27.0, Y_GLOBAL_ROW1),
   ("main_output", WIDTH_MM - 18.0, Y_GLOBAL_ROW1),
   ("xm_knob", 20.0, Y_GLOBAL_ROW2),
   ("xm_cv_jack", 29.0, Y_GLOBAL_ROW2),
   ("xm_cv_atten", 37.0, Y_GLOBAL_ROW2),
   ("fm_cv_jack", WIDTH_MM - 18.0 - 9.0, Y_GLOBAL_ROW2),
   ("fm_cv_atten", WIDTH_MM - 18.0, Y_GLOBAL_ROW2)]

def CV_ROWS : List ℕ := [1, 2, 3, 4]

/-- Y center of knob row `row`: the script computes
Y_OPS_START + row * Y_OPS_ROW_SPACING at each use site. -/
def rowY (row : ℕ) : ℚ := Y_OPS_START + (row : ℚ) * Y_OPS_ROW_SPACING

/-- Y of the fold type display row (generate_coords_header, fold_y):
7mm below the row-3 knob center. -/
def fold_y : ℚ := Y_OPS_START + 3 * Y_OPS_ROW_SPACING + 7.0

/-! Decimal rendering of the rationals, mirroring the Python string
formatting on the (nonnegative, exact two-decimal) values the script
formats. -/

/-- Python format spec .1f (one decimal digit), as rounding half away
from zero, which agrees with the double rendering on every value the
script formats. -/
def fmt1 (q : ℚ) : String :=
  let n : ℕ := ((q * 10 + 1 / 2).num / ((q * 10 + 1 / 2).den : ℤ)).toNat
  Nat.repr (n / 10) ++ "." ++ Nat.repr (n % 10)

/-- Python format spec .2f (two decimal digits). -/
def fmt2 (q : ℚ) : String :=
  let n : ℕ := ((q * 100 + 1 / 2).num / ((q * 100 + 1 / 2).den : ℤ)).toNat
  Nat.repr (n / 100) ++ "." ++ Nat.repr (n / 10 % 10) ++ Nat.repr (n % 10)

/-- Bare f-string interpolation of a float (Python repr): shortest
decimal with at least one fractional digit, exact on the two-decimal
values the script interpolates without a format spec. -/
def pyRepr (q : ℚ) : String :=
  let n : ℕ := ((q * 100 + 1 / 2).num / ((q * 100 + 1 / 2).den : ℤ)).toNat
  if n % 10 = 0 then Nat.repr (n / 100) ++ "." ++ Nat.repr (n / 10 % 10)
  else fmt2 q

/-! Substring test (the Python operator `in` on strings). -/

def listStartsWith : List Char → List Char → Bool
  | _, [] => true
  | [], _ :: _ => false
  | a :: as, b :: bs => a == b && listStartsWith as bs

def listHasInfix : List Char → List Char → Bool
  | [], pat => pat.isEmpty
  | a :: t, pat => listStartsWith (a :: t) pat || listHasInfix t pat

/-- Python `sub in s` for strings. -/
def pyIn (sub s : String) : Bool := listHasInfix s.data sub.data

/-- Python sep.join for sep = a newline (same string as
String.intercalate, built right-nested). -/
def joinNL : List String → String
  | [] => ""
  | [a] => a
  | a :: b :: t => a ++ "\n" ++ joinNL (b :: t)

/-! SVG emitter (generate_svg), modelled structurally: the body of the
document is a list of SvgElem, and renderElem produces exactly the line
the script appends for each element. -/

inductive SvgElem where
  | bgRect (w h : ℚ) (fill : String)
  | algoRect (x y w : ℚ)
  | circle (cx cy r : ℚ) (fill stroke : String)
  | rectElem (x y w h : ℚ) (fill stroke : String)
  | lineElem (x1 y1 x2 y2 : ℚ) (stroke : String) (width : ℚ)
deriving DecidableEq

/-- Renders one body element to the very line generate_svg appends
(the helpers _circle, _rect, _line and the two inline rect f-strings). -/
def renderElem : SvgElem → String
  | .bgRect w h fill =>
      "  <rect width=\"" ++ pyRepr w ++ "\" height=\"" ++ pyRepr h ++
      "\" fill=\"" ++ fill ++ "\" />"
  | .algoRect x y w =>
      "  <rect x=\"" ++ fmt1 x ++ "\" y=\"" ++ fmt1 y ++ "\" width=\"" ++ fmt1 w ++
      "\" height=\"8\" rx=\"1\" fill=\"#0a0a1a\" stroke=\"#404060\" stroke-width=\"0.3\" />"
  | .circle cx cy r fill stroke =>
      "  <circle cx=\"" ++ fmt1 cx ++ "\" cy=\"" ++ fmt1 cy ++ "\" r=\"" ++ pyRepr r ++
      "\" fill=\"" ++ fill ++ "\" stroke=\"" ++ stroke ++ "\" stroke-width=\"0.3\" />"
  | .rectElem x y w h fill stroke =>
      "  <rect x=\"" ++ fmt1 x ++ "\" y=\"" ++ fmt1 y ++ "\" width=\"" ++ fmt1 w ++
      "\" height=\"" ++ fmt1 h ++ "\" fill=\"" ++ fill ++ "\" stroke=\"" ++ stroke ++
      "\" stroke-width=\"0.3\" />"
  | .lineElem x1 y1 x2 y2 stroke width =>
      "  <line x1=\"" ++ fmt1 x1 ++ "\" y1=\"" ++ fmt1 y1 ++ "\" x2=\"" ++ fmt1 x2 ++
      "\" y2=\"" ++ fmt1 y2 ++ "\" stroke=\"" ++ stroke ++ "\" stroke-width=\"" ++
      pyRepr width ++ "\" />"

/-- Style classifier for global-control placeholder circles
(generate_svg, the if chain on the control name). -/
def globalStyle (name : String) : ℚ × String × String :=
  if pyIn ("jack") name || pyIn ("output") name then (JACK_RADIUS, "#222", "#888")
  else if pyIn ("atten") name then (SMALL_KNOB_RADIUS, "#333", "#666")
  else (SMALL_KNOB_RADIUS, "#333", "#aaa")

/-- What the global-controls loop of generate_svg emits for one entry:
nothing for the algo_display entry (continue), otherwise one circle in
the classifier style. -/
def globalCircle (e : String × ℚ × ℚ) : Option SvgElem :=
  if e.1 = "algo_display" then none
  else some (.circle e.2.1 e.2.2 (globalStyle e.1).1 (globalStyle e.1).2.1
              (globalStyle e.1).2.2)

def sep_y : ℚ := Y_OP_HEADER - 3

def col_mid_x (i : ℕ) : ℚ := op_knob_x i + KNOB_TO_MIDDLE_DX

def v_sep_top : ℚ := Y_OPS_START - TOGGLE_H

def v_sep_bottom : ℚ := Y_OPS_START + 4 * Y_OPS_ROW_SPACING + 4.0

/-- X of the i-th vertical separator: midpoint of adjacent column
middles. -/
def vSepX (i : ℕ) : ℚ := (col_mid_x i + col_mid_x (i + 1)) / 2

/-- The three placeholder shapes of one grid cell (generate_svg, the
5 x 4 loop): row 0 is knob + toggle rect + fine trim, rows 1-4 are
knob + CV jack + attenuator. -/
def cellElems (row col : ℕ) : List SvgElem :=
  let y := rowY row
  let kx := op_knob_x col
  let mx := kx + KNOB_TO_MIDDLE_DX
  let rx := kx + KNOB_TO_RIGHT_DX
  if row = 0 then
    [.circle kx y SMALL_KNOB_RADIUS ("#333") ("#aaa"),
     .rectElem (mx - TOGGLE_W) (y - TOGGLE_H) (TOGGLE_W * 2) (TOGGLE_H * 2) ("#444") ("#888"),
     .circle rx y SMALL_KNOB_RADIUS ("#333") ("#666")]
  else
    [.circle kx y SMALL_KNOB_RADIUS ("#333") ("#aaa"),
     .circle mx y JACK_RADIUS ("#222") ("#888"),
     .circle rx y SMALL_KNOB_RADIUS ("#333") ("#666")]

/-- Body elements of the SVG document, in emission order, for a given
global-control table.  None when the table has no algo_display entry
(the script would raise a KeyError there). -/
def svgElemsWith (controls : List (String × ℚ × ℚ)) : Option (List SvgElem) :=
  match List.lookup ("algo_display") controls with
  | none => none
  | some p =>
    let algo_w := WIDTH_MM - 2 * 16
    some ([SvgElem.bgRect WIDTH_MM HEIGHT_MM ("#1a1a2e"),
           SvgElem.algoRect (p.1 - algo_w / 2) (p.2 - 4) algo_w]
      ++ controls.filterMap globalCircle
      ++ [SvgElem.lineElem MARGIN_LEFT sep_y (WIDTH_MM - MARGIN_RIGHT) sep_y ("#404060") 0.2]
      ++ (List.range 3).map
          (fun i => SvgElem.lineElem (vSepX i) v_sep_top (vSepX i) v_sep_bottom ("#404060") 0.2)
      ++ (List.range 5).flatMap (fun row => (List.range 4).flatMap (fun col => cellElems row col)))

def svgOpenLine : String :=
  "<svg xmlns=\"http://www.w3.org/2000/svg\" width=\"" ++ pyRepr WIDTH_MM ++
  "mm\" height=\"" ++ pyRepr HEIGHT_MM ++ "mm\" viewBox=\"0 0 " ++ pyRepr WIDTH_MM ++
  " " ++ pyRepr HEIGHT_MM ++ "\">"

def svgLinesWith (controls : List (String × ℚ × ℚ)) : Option (List String) :=
  (svgElemsWith controls).map
    (fun es => svgOpenLine :: (es.map renderElem ++ ["</svg>"]))

def generateSvgWith (controls : List (String × ℚ × ℚ)) : Option String :=
  (svgLinesWith controls).map joinNL

def svgElems : List SvgElem := (svgElemsWith GLOBAL_CONTROLS).getD []

def svgLines : List String := (svgLinesWith GLOBAL_CONTROLS).getD []

/-- The panel SVG string (generate_svg of the script): the join of the
emitted lines by newlines. -/
def generate_svg : String := joinNL svgLines

end FourMM

namespace FourMM

/-! Header emitter (generate_coords_header), modelled as declaration
triples (constant name, alignment spacing, value string) per section,
plus the literal comment/blank lines; the emitted listing is assembled
from the same triples that define the name list. -/

/-- One constexpr line: the f-strings all have the shape
constexpr float NAME<spacing>= VALUEf; -/
def mkConst (name sp val : String) : String :=
  "constexpr float " ++ name ++ sp ++ "= " ++ val ++ "f;"

def mkConstD (d : String × String × String) : String := mkConst d.1 d.2.1 d.2.2

/-- Python str.upper on the (ASCII) control names. -/
def upperName (s : String) : String := String.mk (s.data.map Char.toUpper)

/-- The OP<n> prefix, with the 1-based column number of the script. -/
def opN (col : ℕ) : String := "OP" ++ Nat.repr (col + 1)

def panelDecls : List (String × String × String) :=
  [("PANEL_WIDTH", "  ", fmt2 WIDTH_MM),
   ("PANEL_HEIGHT", " ", fmt1 HEIGHT_MM)]

def labelDecls : List (String × String × String) :=
  [("LABEL_COL_X", "   ", fmt1 LABEL_COL_X),
   ("OP_HEADER_Y", "   ", fmt1 Y_OP_HEADER)]

def globalDecls (controls : List (String × ℚ × ℚ)) : List (String × String × String) :=
  controls.flatMap
    (fun e => [(upperName e.1 ++ "_X", " ", fmt1 e.2.1),
               (upperName e.1 ++ "_Y", " ", fmt1 e.2.2)])

def knobDecls : List (String × String × String) :=
  (List.range 4).flatMap (fun col => (List.range 5).flatMap (fun row =>
    [(opN col ++ "_KNOB" ++ Nat.repr row ++ "_X", " ", fmt1 (op_knob_x col)),
     (opN col ++ "_KNOB" ++ Nat.repr row ++ "_Y", " ", fmt1 (rowY row))]))

def toggleDecls : List (String × String × String) :=
  (List.range 4).flatMap (fun col =>
    [(opN col ++ "_TOGGLE_X", " ", fmt1 (op_knob_x col + KNOB_TO_MIDDLE_DX)),
     (opN col ++ "_TOGGLE_Y", " ", fmt1 Y_OPS_START)])

def fineDecls : List (String × String × String) :=
  (List.range 4).flatMap (fun col =>
    [(opN col ++ "_FINE_X", " ", fmt1 (op_knob_x col + KNOB_TO_RIGHT_DX)),
     (opN col ++ "_FINE_Y", " ", fmt1 Y_OPS_START)])

def cvDecls : List (String × String × String) :=
  (List.range 4).flatMap (fun col =>
    CV_ROWS.enum.flatMap (fun p =>
      [(opN col ++ "_CV" ++ Nat.repr p.1 ++ "_JACK_X", "  ",
          fmt1 (op_knob_x col + KNOB_TO_MIDDLE_DX)),
       (opN col ++ "_CV" ++ Nat.repr p.1 ++ "_JACK_Y", "  ", fmt1 (rowY p.2)),
       (opN col ++ "_CV" ++ Nat.repr p.1 ++ "_ATTEN_X", " ",
          fmt1 (op_knob_x col + KNOB_TO_RIGHT_DX)),
       (opN col ++ "_CV" ++ Nat.repr p.1 ++ "_ATTEN_Y", " ", fmt1 (rowY p.2))]))

def foldDecls : List (String × String × String) :=
  (List.range 4).flatMap (fun col =>
    [(opN col ++ "_FOLD_TYPE_X", " ", fmt1 (op_knob_x col)),
     (opN col ++ "_FOLD_TYPE_Y", " ", fmt1 fold_y)])

def midDecls : List (String × String × String) :=
  (List.range 4).map
    (fun col => (opN col ++ "_MID_X", " ", fmt1 (op_knob_x col + KNOB_TO_MIDDLE_DX)))

/-- All constexpr declarations of the listing, in emission order. -/
def headerDeclsWith (controls : List (String × ℚ × ℚ)) : List (String × String × String) :=
  panelDecls ++ labelDecls ++ globalDecls controls ++ knobDecls ++ toggleDecls ++
    fineDecls ++ cvDecls ++ foldDecls ++ midDecls

/-- The lines generate_coords_header appends, in order. -/
def headerLinesWith (controls : List (String × ℚ × ℚ)) : List String :=
  [("#pragma once"),
   ("// Auto-generated by scripts/generate_panel.py -- do not edit manually."),
   ("// All coordinates in mm (use mm2px() in VCV widget code)."),
   (""),
   ("namespace fourmm_layout \x7b"),
   ("")]
  ++ panelDecls.map mkConstD
  ++ [("")]
  ++ [("// Label positions (for NanoVG rendering)")]
  ++ labelDecls.map mkConstD
  ++ [("")]
  ++ [("// Global controls")]
  ++ (globalDecls controls).map mkConstD
  ++ [("")]
  ++ [("// Operator knob positions"),
      ("// Row index: 0=Coarse, 1=Level, 2=Warp, 3=Fold, 4=FB")]
  ++ knobDecls.map mkConstD
  ++ [("")]
  ++ [("// Freq-mode toggle positions (row 0, middle sub-column)")]
  ++ toggleDecls.map mkConstD
  ++ [("")]
  ++ [("// Fine trimpot positions (row 0, right sub-column)")]
  ++ fineDecls.map mkConstD
  ++ [("")]
  ++ [("// Operator CV positions (jack + attenuverter beside knob)"),
      ("// CV index: 0=Level, 1=Warp, 2=Fold, 3=FB"),
      ("// CV row N is at the same Y as knob row N+1")]
  ++ cvDecls.map mkConstD
  ++ [("")]
  ++ [("// Fold type display positions (below fold knob)")]
  ++ foldDecls.map mkConstD
  ++ [("")]
  ++ [("// Middle sub-column X per operator (for OP header centering)")]
  ++ midDecls.map mkConstD
  ++ [("")]
  ++ [("\x7d // namespace fourmm_layout"), ("")]

def generateHeaderWith (controls : List (String × ℚ × ℚ)) : String :=
  joinNL (headerLinesWith controls)

/-- The C++ layout header string (generate_coords_header of the
script). -/
def generate_coords_header : String := generateHeaderWith GLOBAL_CONTROLS

/-- The constant names of the emitted listing, in emission order. -/
def headerConstNames : List String := (headerDeclsWith GLOBAL_CONTROLS).map (fun d => d.1)

/-- The value string the listing declares for a given constant name. -/
def findVal (n : String) : Option String :=
  ((headerDeclsWith GLOBAL_CONTROLS).find? (fun d => d.1 == n)).map (fun d => d.2.2)

end FourMM

namespace FourMM

/-! Derived views used by the claim statements. -/

/-- Center point of a body element (for rectangles, the center of the
emitted rectangle; the script passes the top-left corner and the full
extent to _rect). -/
def svgCenter : SvgElem → ℚ × ℚ
  | .bgRect w h _ => (w / 2, h / 2)
  | .algoRect x y w => (x + w / 2, y + 4)
  | .circle cx cy _ _ _ => (cx, cy)
  | .rectElem x y w h _ _ => (x + w / 2, y + h / 2)
  | .lineElem a b c d _ _ => ((a + c) / 2, (b + d) / 2)

def listEndsWith (l suf : List Char) : Bool := listStartsWith l.reverse suf.reverse

/-- A self-closing element line as the script emits them: two-space
indent, an opening angle bracket, and a closing slash-bracket. -/
def isVoidElemLine (s : String) : Bool :=
  listStartsWith s.data ("  <").data && listEndsWith s.data ("/>").data

/-- Balanced-tag shape of the emitted line list: an opening svg tag
line, self-closing element lines, and the closing svg tag, so the tag
structure of the joined document is balanced. -/
def docBalanced (ls : List String) : Bool :=
  match ls with
  | [] => false
  | first :: rest =>
    match rest.getLast? with
    | none => false
    | some last =>
      listStartsWith first.data ("<svg ").data && listEndsWith first.data (">").data &&
      last == "</svg>" && rest.dropLast.all isVoidElemLine

/-- A valid numeric attribute token: digits with at most one decimal
point, starting and ending with a digit. -/
def validNum (s : String) : Bool :=
  !s.data.isEmpty && s.data.all (fun c => c.isDigit || c == '.') &&
  s.data.count ('.') ≤ 1 &&
  (match s.data.head? with | some c => c.isDigit | none => false) &&
  (match s.data.getLast? with | some c => c.isDigit | none => false)

/-- The numeric attribute strings renderElem interpolates for one
element (including the literal stroke-width, height and rx tokens). -/
def elemNums : SvgElem → List String
  | .bgRect w h _ => [pyRepr w, pyRepr h]
  | .algoRect x y w => [fmt1 x, fmt1 y, fmt1 w, "8", "1", "0.3"]
  | .circle cx cy r _ _ => [fmt1 cx, fmt1 cy, pyRepr r, "0.3"]
  | .rectElem x y w h _ _ => [fmt1 x, fmt1 y, fmt1 w, fmt1 h, "0.3"]
  | .lineElem a b c d _ w => [fmt1 a, fmt1 b, fmt1 c, fmt1 d, pyRepr w]

def isBgRect : SvgElem → Bool
  | .bgRect _ _ _ => true
  | _ => false

def isAlgoRect : SvgElem → Bool
  | .algoRect _ _ _ => true
  | _ => false

def isLineElem : SvgElem → Bool
  | .lineElem _ _ _ _ _ _ => true
  | _ => false

/-- Shape kinds of one grid cell as the claim states them: row 0 is
knob circle + toggle rectangle + trim circle, rows 1-4 are knob circle
+ jack circle + attenuator circle. -/
def cellShapeKinds (row col : ℕ) : Bool :=
  match cellElems row col with
  | [SvgElem.circle _ _ r1 _ _, SvgElem.rectElem _ _ _ _ _ _, SvgElem.circle _ _ r3 _ _] =>
      (row == 0) && r1 == SMALL_KNOB_RADIUS && r3 == SMALL_KNOB_RADIUS
  | [SvgElem.circle _ _ r1 _ _, SvgElem.circle _ _ r2 _ _, SvgElem.circle _ _ r3 _ _] =>
      (row != 0) && r1 == SMALL_KNOB_RADIUS && r2 == JACK_RADIUS && r3 == SMALL_KNOB_RADIUS
  | _ => false

/-- Constant-name stems used by the header for the three sub-widgets of
a grid cell. -/
def knobName (c r : ℕ) : String := opN c ++ "_KNOB" ++ Nat.repr r

def midName (c r : ℕ) : String :=
  if r = 0 then opN c ++ "_TOGGLE" else opN c ++ "_CV" ++ Nat.repr (r - 1) ++ "_JACK"

def rightName (c r : ℕ) : String :=
  if r = 0 then opN c ++ "_FINE" else opN c ++ "_CV" ++ Nat.repr (r - 1) ++ "_ATTEN"

/-- Center of the i-th shape of a grid cell (0 knob, 1 middle, 2
right). -/
def cellCenter (row col i : ℕ) : ℚ × ℚ :=
  svgCenter ((cellElems row col).getD i (SvgElem.bgRect 0 0 ("")))

/-- Widget center points of the emitted document (circle centers,
rectangle centers, separator endpoints), plus the fold-type label
positions of the header. -/
def elemPoints : SvgElem → List (ℚ × ℚ)
  | .bgRect _ _ _ => []
  | .algoRect x y w => [(x + w / 2, y + 4)]
  | .circle cx cy _ _ _ => [(cx, cy)]
  | .rectElem x y w h _ _ => [(x + w / 2, y + h / 2)]
  | .lineElem a b c d _ _ => [(a, b), (c, d)]

def allLayoutPoints : List (ℚ × ℚ) :=
  svgElems.flatMap elemPoints ++ (List.range 4).map (fun c => (op_knob_x c, fold_y))

/-- GLOBAL_CONTROLS with the voct_jack and fine_tune_knob entries
inserted in the opposite order: the same name-to-coordinate
associations as GLOBAL_CONTROLS, in a different insertion order. -/
def GLOBAL_CONTROLS_swapped : List (String × ℚ × ℚ) :=
  [("algo_display", WIDTH_MM / 2, Y_ALGO),
   ("fine_tune_knob", WIDTH_MM / 2, Y_GLOBAL_ROW1),
   ("voct_jack", 20.0, Y_GLOBAL_ROW1),
   ("vca_knob", WIDTH_MM - 27.0, Y_GLOBAL_ROW1),
   ("main_output", WIDTH_MM - 18.0, Y_GLOBAL_ROW1),
   ("xm_knob", 20.0, Y_GLOBAL_ROW2),
   ("xm_cv_jack", 29.0, Y_GLOBAL_ROW2),
   ("xm_cv_atten", 37.0, Y_GLOBAL_ROW2),
   ("fm_cv_jack", WIDTH_MM - 18.0 - 9.0, Y_GLOBAL_ROW2),
   ("fm_cv_atten", WIDTH_MM - 18.0, Y_GLOBAL_ROW2)]

/-- Permutation of the optional line lists of the SVG emitter. -/
def optionPerm : Option (List String) → Option (List String) → Prop
  | some a, some b => a.Perm b
  | none, none => True
  | _, _ => False

end FourMM

namespace FourMM

/-! Claim theorems. -/

/-- C1: with HP fixed at 26, the panel width is 26 x 5.08 = 132.08 mm,
the operator-column pitch is (132.08 - 4 - 20) / 4 = 27.02 mm, and the
knob center x for column 0 is 20 + 27.02 x 0 + 5.0 = 25.0 mm. -/
theorem c1_panel_width_pitch_and_knob0 :
    HP = 26 ∧ WIDTH_MM = 26 * 5.08 ∧ WIDTH_MM = 132.08 ∧
    OP_COL_PITCH = (132.08 - 4 - 20) / 4 ∧ OP_COL_PITCH = 27.02 ∧
    op_knob_x 0 = 20 + 27.02 * 0 + 5.0 ∧ op_knob_x 0 = 25.0 := by
  decide

/-- C2: with row spacing 15.0 mm and row start 55.0 mm, the y of knob
row 3 (Fold) is 55 + 3 x 15 = 100.0 mm in every operator column (all
three shapes of every row-3 cell are centered at y = 100), and the
fold-type label y emitted by the header for every column is
100 + 7 = 107.0 mm. -/
theorem c2_row3_y_and_fold_label_y :
    rowY 3 = 55 + 3 * 15 ∧ rowY 3 = 100 ∧
    (∀ c : Fin 4, (cellElems 3 c).map (fun e => (svgCenter e).2) = [100, 100, 100]) ∧
    fold_y = rowY 3 + 7 ∧ fold_y = 107 ∧
    (∀ c : Fin 4, findVal (opN c ++ "_FOLD_TYPE_Y") = some (fmt1 107)) := by
  decide

/-- C3: the 156 constant names emitted by the header emitter (panel
dimensions, label positions, global controls, and the whole operator
grid) are pairwise distinct. -/
theorem c3_header_names_unique :
    headerConstNames.Nodup ∧ headerConstNames.length = 156 := by
  decide

end FourMM

namespace FourMM

/-- C4 counterexample: algo_display is a named global control of the
mapping and the name-substring classifier assigns it the standard knob
style, yet the global-controls loop of the vector emitter skips it and
the document contains no such styled shape for it, so the emitter does
not emit exactly one classifier-styled shape for every named global
control. -/
theorem c4_counterexample :
    ("algo_display", WIDTH_MM / 2, Y_ALGO) ∈ GLOBAL_CONTROLS ∧
    globalStyle ("algo_display") = (SMALL_KNOB_RADIUS, "#333", "#aaa") ∧
    globalCircle ("algo_display", WIDTH_MM / 2, Y_ALGO) = none ∧
    svgElems.countP
      (fun s => s == SvgElem.circle (WIDTH_MM / 2) Y_ALGO SMALL_KNOB_RADIUS ("#333") ("#aaa"))
      = 0 := by
  decide

/-- C4 (amended): for every named global control other than the
algo_display entry (which is rendered separately as the
algorithm-display rectangle), the vector emitter emits exactly one
circle for it, in the style the name-substring classifier selects. -/
theorem c4_global_control_shapes :
    ∀ e ∈ GLOBAL_CONTROLS, e.1 ≠ "algo_display" →
      globalCircle e = some (SvgElem.circle e.2.1 e.2.2 (globalStyle e.1).1
        (globalStyle e.1).2.1 (globalStyle e.1).2.2) ∧
      svgElems.countP
        (fun s => s == SvgElem.circle e.2.1 e.2.2 (globalStyle e.1).1
          (globalStyle e.1).2.1 (globalStyle e.1).2.2) = 1 := by
  decide

/-- C4 witness: the amended claim applied to the voct_jack control. -/
theorem c4_witness :
    globalCircle ("voct_jack", 20.0, Y_GLOBAL_ROW1) =
      some (SvgElem.circle 20.0 Y_GLOBAL_ROW1 (globalStyle ("voct_jack")).1
        (globalStyle ("voct_jack")).2.1 (globalStyle ("voct_jack")).2.2) ∧
    svgElems.countP
      (fun s => s == SvgElem.circle 20.0 Y_GLOBAL_ROW1 (globalStyle ("voct_jack")).1
        (globalStyle ("voct_jack")).2.1 (globalStyle ("voct_jack")).2.2) = 1 :=
  c4_global_control_shapes ("voct_jack", 20.0, Y_GLOBAL_ROW1) (by decide) (by decide)

/-- C5: the emitted document is the newline join of a balanced line
list (an svg open tag, self-closing element lines, a closing tag) whose
numeric attribute tokens are all valid; the body holds exactly one
background rectangle and one algorithm-display rectangle; each of the
20 grid cells holds exactly 3 placeholder shapes of the claimed kinds
(row 0 knob circle + toggle rectangle + trim circle, rows 1-4 knob +
jack + attenuator circles); and the total element count is the fixed
number 75. -/
theorem c5_document_shape :
    generate_svg = joinNL svgLines ∧
    docBalanced svgLines = true ∧
    ((svgElems.flatMap elemNums) ++ [pyRepr WIDTH_MM, pyRepr HEIGHT_MM]).all validNum = true ∧
    svgElems.countP isBgRect = 1 ∧
    svgElems.countP isAlgoRect = 1 ∧
    (∀ r : Fin 5, ∀ c : Fin 4, (cellElems r c).length = 3 ∧ cellShapeKinds r c = true) ∧
    svgElems.length = 75 :=
  ⟨rfl, by decide, by decide, by decide, by decide, by decide, by decide⟩

/-- C6: the document contains exactly four separator lines: one
horizontal line, above the operator section (y = 43 < 55), and three
vertical lines, the i-th placed at the midpoint between the middles of
adjacent operator columns and spanning from y = 50 (above the row-0
widget centers) to y = 119 (below the row-4 widget centers). -/
theorem c6_separator_lines :
    (svgElems.filter isLineElem) =
      [SvgElem.lineElem MARGIN_LEFT sep_y (WIDTH_MM - MARGIN_RIGHT) sep_y ("#404060") 0.2,
       SvgElem.lineElem (vSepX 0) v_sep_top (vSepX 0) v_sep_bottom ("#404060") 0.2,
       SvgElem.lineElem (vSepX 1) v_sep_top (vSepX 1) v_sep_bottom ("#404060") 0.2,
       SvgElem.lineElem (vSepX 2) v_sep_top (vSepX 2) v_sep_bottom ("#404060") 0.2] ∧
    svgElems.countP
      (fun e => match e with | SvgElem.lineElem _ b _ d _ _ => b == d | _ => false) = 1 ∧
    svgElems.countP
      (fun e => match e with | SvgElem.lineElem a _ c _ _ _ => a == c | _ => false) = 3 ∧
    (∀ i : Fin 3, vSepX i.1 = (col_mid_x i.1 + col_mid_x (i.1 + 1)) / 2) ∧
    sep_y < rowY 0 ∧ v_sep_top < rowY 0 ∧ rowY 4 < v_sep_bottom := by
  decide

end FourMM

namespace FourMM

/-- Association-list lookup is insensitive to permutation when the keys
are distinct. -/
lemma lookup_perm_eq (a : String) :
    ∀ {l1 l2 : List (String × ℚ × ℚ)}, l1.Perm l2 → (l1.map Prod.fst).Nodup →
      List.lookup a l1 = List.lookup a l2 := by
  intro l1 l2 p
  induction p with
  | nil => exact fun _ => rfl
  | cons x p ih =>
      intro nd
      obtain ⟨k, v⟩ := x
      rw [List.map_cons, List.nodup_cons] at nd
      simp only [List.lookup_cons]
      cases h : a == k
      · simpa [h] using ih nd.2
      · simp [h]
  | swap x y t =>
      intro nd
      obtain ⟨k1, v1⟩ := x
      obtain ⟨k2, v2⟩ := y
      rw [List.map_cons, List.map_cons, List.nodup_cons] at nd
      have hne : k2 ≠ k1 := by
        intro h
        exact nd.1 (by simp [h])
      simp only [List.lookup_cons]
      cases h1 : a == k2 <;> cases h2 : a == k1 <;> simp [h1, h2]
      exact absurd ((eq_of_beq h1).symm.trans (eq_of_beq h2)) hne
  | trans p1 p2 ih1 ih2 =>
      intro nd
      exact (ih1 nd).trans (ih2 ((p1.map Prod.fst).nodup_iff.mp nd))

/-- C7 counterexample: reordering two entries of the global-control
mapping (same name-to-coordinate associations, different insertion
order) changes both the SVG document string and the header listing
string, so insertion order is not irrelevant to the emitted strings. -/
theorem c7_counterexample :
    GLOBAL_CONTROLS.Perm GLOBAL_CONTROLS_swapped ∧
    GLOBAL_CONTROLS ≠ GLOBAL_CONTROLS_swapped ∧
    generateSvgWith GLOBAL_CONTROLS ≠ generateSvgWith GLOBAL_CONTROLS_swapped ∧
    generateHeaderWith GLOBAL_CONTROLS ≠ generateHeaderWith GLOBAL_CONTROLS_swapped :=
  ⟨by decide, by decide, by decide, by decide⟩

/-- C7 (amended): for any two global-control tables holding the same
name-to-coordinate associations (distinct names) in different insertion
orders, the two emitters produce the same collection of output lines up
to order (the line lists are permutations of each other), though not
necessarily the same document strings. -/
theorem c7_order_irrelevant_up_to_line_permutation :
    ∀ l1 l2 : List (String × ℚ × ℚ), l1.Perm l2 → (l1.map Prod.fst).Nodup →
      optionPerm (svgLinesWith l1) (svgLinesWith l2) ∧
      (headerLinesWith l1).Perm (headerLinesWith l2) := by
  intro l1 l2 p nd
  constructor
  · have hlk := lookup_perm_eq ("algo_display") p nd
    have hg : (l1.filterMap globalCircle).Perm (l2.filterMap globalCircle) :=
      p.filterMap globalCircle
    unfold svgLinesWith svgElemsWith
    rw [hlk]
    cases h : List.lookup ("algo_display") l2 with
    | none => simp [optionPerm]
    | some pr =>
        simp only [Option.map_some', optionPerm, List.append_assoc]
        exact List.Perm.cons _
          ((List.Perm.map renderElem (List.Perm.append_left _
            (hg.append_right _))).append_right _)
  · have hgd : (globalDecls l1).Perm (globalDecls l2) := by
      unfold globalDecls
      exact p.flatMap_right _
    unfold headerLinesWith
    simp only [List.append_assoc]
    exact List.Perm.append_left _ (List.Perm.append_left _ (List.Perm.append_left _
      (List.Perm.append_left _ (List.Perm.append_left _ (List.Perm.append_left _
        (List.Perm.append_left _ ((hgd.map mkConstD).append_right _)))))))

/-- C7 witness: the amended claim applied to GLOBAL_CONTROLS and its
reordering GLOBAL_CONTROLS_swapped. -/
theorem c7_witness :
    optionPerm (svgLinesWith GLOBAL_CONTROLS) (svgLinesWith GLOBAL_CONTROLS_swapped) ∧
    (headerLinesWith GLOBAL_CONTROLS).Perm (headerLinesWith GLOBAL_CONTROLS_swapped) :=
  c7_order_irrelevant_up_to_line_permutation GLOBAL_CONTROLS GLOBAL_CONTROLS_swapped
    (by decide) (by decide)

end FourMM

namespace FourMM

/-- C8: both emitters are deterministic — any two values produced by
the SVG emitter are equal, and any two values produced by the header
emitter are equal, so rerunning the generator with the unchanged
parameter table yields byte-identical output content. -/
theorem c8_emitters_deterministic :
    ∀ s1 s2 h1 h2 : String,
      s1 = generate_svg → s2 = generate_svg →
      h1 = generate_coords_header → h2 = generate_coords_header →
      s1 = s2 ∧ h1 = h2 := by
  intro s1 s2 h1 h2 e1 e2 e3 e4
  subst e1
  subst e2
  subst e3
  subst e4
  exact ⟨rfl, rfl⟩

/-- C8 witness: two runs of each emitter, compared. -/
theorem c8_witness : generate_svg = generate_svg ∧
    generate_coords_header = generate_coords_header :=
  c8_emitters_deterministic generate_svg generate_svg
    generate_coords_header generate_coords_header rfl rfl rfl rfl

/-- C9: for every grid cell, the centers at which the SVG emitter
places the knob, the middle sub-widget (toggle or CV jack) and the
right sub-widget (fine trim or CV attenuator), rendered to one decimal
place, equal the X/Y constant values the header emitter declares for
that widget. -/
theorem c9_svg_header_grid_agreement :
    ∀ c : Fin 4, ∀ r : Fin 5,
      findVal (knobName c.1 r.1 ++ "_X") = some (fmt1 (cellCenter r.1 c.1 0).1) ∧
      findVal (knobName c.1 r.1 ++ "_Y") = some (fmt1 (cellCenter r.1 c.1 0).2) ∧
      findVal (midName c.1 r.1 ++ "_X") = some (fmt1 (cellCenter r.1 c.1 1).1) ∧
      findVal (midName c.1 r.1 ++ "_Y") = some (fmt1 (cellCenter r.1 c.1 1).2) ∧
      findVal (rightName c.1 r.1 ++ "_X") = some (fmt1 (cellCenter r.1 c.1 2).1) ∧
      findVal (rightName c.1 r.1 ++ "_Y") = some (fmt1 (cellCenter r.1 c.1 2).2) := by
  decide

/-- C10: every widget center of the emitted document (global controls,
grid widgets, the separator-line endpoints) and every fold-type label
position of the header lies within the panel bounds
0 <= x <= 132.08 and 0 <= y <= 128.5. -/
theorem c10_all_points_in_bounds :
    ∀ p ∈ allLayoutPoints,
      0 ≤ p.1 ∧ p.1 ≤ WIDTH_MM ∧ 0 ≤ p.2 ∧ p.2 ≤ HEIGHT_MM := by
  decide

/-- C10 witness: the bound applied to the voct_jack center (20, 26). -/
theorem c10_witness :
    (0 : ℚ) ≤ (20 : ℚ) ∧ (20 : ℚ) ≤ WIDTH_MM ∧ (0 : ℚ) ≤ (26 : ℚ) ∧ (26 : ℚ) ≤ HEIGHT_MM :=
  c10_all_points_in_bounds ((20 : ℚ), (26 : ℚ)) (by decide)

end FourMM
